import Mathlib

/-!
Verification of the Icarus option-pricing core (shallow embedding).

The definitions below are transcribed from the repository's Python source:
  * `engines/financial.py` — closed-form Black-Scholes (`bs_call`), the
    Chaffe lockup discount (`_calculate_lockup_discount_numba`) and the
    CRR binomial lattice (`binomial_custom_optimized`);
  * `services/strategy.py` / `core/domain.py` — the model-selection policy;
  * `ui/app_interface.py` — the RSU unit-value formula and the per-tranche
    aggregation loop (`_execute_calc`).
Floating-point numbers are modelled as real numbers; Python's `int(x)`
truncation is modelled by `pyInt`.  Division is Lean's total division
(`x / 0 = 0`); where a source expression divides by zero this is noted at
the definition.
-/

namespace Icarus

/-- Constant from engines/financial.py line 10: `EPSILON = 1e-9`. -/
noncomputable def EPSILON : ℝ := 1 / 1000000000

/-- Mathematical model of the error function `math.erf` used by the Numba
normal CDF: `erf x = (2/√π) · ∫ t in 0..x, e^(−t²)`. -/
noncomputable def erf (x : ℝ) : ℝ :=
  2 / Real.sqrt Real.pi * ∫ t in (0:ℝ)..x, Real.exp (-(t ^ 2))

/-- engines/financial.py lines 13-15: `0.5 * (1 + math.erf(x / 1.41421356))`. -/
noncomputable def _numba_norm_cdf (x : ℝ) : ℝ :=
  0.5 * (1 + erf (x / 1.41421356))

/-- Model of `scipy.stats.norm.cdf`: the standard normal CDF
`∫ t ≤ x, e^(−t²/2) / √(2π)`. -/
noncomputable def norm_cdf (x : ℝ) : ℝ :=
  ∫ t in Set.Iic x, Real.exp (-(t ^ 2) / 2) / Real.sqrt (2 * Real.pi)

/-- engines/financial.py lines 17-42: `_calculate_lockup_discount_numba`
(Chaffe lockup discount, EPSILON-guarded version). -/
noncomputable def _calculate_lockup_discount_numba
    (volatility lockup_time stock_price q : ℝ) : ℝ :=
  if lockup_time ≤ EPSILON then 0
  else
    let vol_sq_t := volatility ^ 2 * lockup_time
    let term_inner := 2 * (Real.exp vol_sq_t - vol_sq_t - 1)
    if term_inner ≤ EPSILON then 0
    else
      let val_log := Real.exp vol_sq_t - 1
      if val_log ≤ EPSILON then 0
      else
        let b := vol_sq_t + Real.log term_inner - 2 * Real.log val_log
        if b < 0 then 0
        else
          let a := Real.sqrt b
          stock_price * Real.exp (-(q * lockup_time)) *
            (_numba_norm_cdf (a / 2) - _numba_norm_cdf (-a / 2))

/-- app.py lines 100-116: `FinancialMath.calculate_lockup_discount`
(Chaffe discount, plain-zero-guarded version, scipy CDF). -/
noncomputable def calculate_lockup_discount
    (volatility lockup_time stock_price q : ℝ) : ℝ :=
  if lockup_time ≤ 0 then 0
  else
    let vol_sq_t := volatility ^ 2 * lockup_time
    let term_inner := 2 * (Real.exp vol_sq_t - vol_sq_t - 1)
    if term_inner ≤ 0 then 0
    else
      let b := vol_sq_t + Real.log term_inner - 2 * Real.log (Real.exp vol_sq_t - 1)
      if b < 0 then 0
      else
        let a := Real.sqrt b
        stock_price * Real.exp (-(q * lockup_time)) *
          (norm_cdf (a / 2) - norm_cdf (-a / 2))

/-- engines/financial.py lines 49-82: `FinancialMath.bs_call`.  The Python
`try` around the closed-form branch can only fail on floating-point
evaluation; over the reals the formula is total, so the `except` fallback
is unreachable in this model. -/
noncomputable def bs_call (S K T r sigma q : ℝ) : ℝ :=
  if T ≤ EPSILON then max (S - K) 0
  else if sigma ≤ EPSILON then
    max (S * Real.exp (-(q * T)) - K * Real.exp (-(r * T))) 0
  else if K ≤ EPSILON then S * Real.exp (-(q * T))
  else if S ≤ EPSILON then 0
  else
    let sqrt_T := Real.sqrt T
    let d1 := (Real.log (S / K) + (r - q + 0.5 * sigma ^ 2) * T) / (sigma * sqrt_T)
    let d2 := d1 - sigma * sqrt_T
    S * Real.exp (-(q * T)) * norm_cdf d1 - K * Real.exp (-(r * T)) * norm_cdf d2

/-- Python `int(x)` for floats: truncation toward zero. -/
noncomputable def pyInt (x : ℝ) : ℤ :=
  if 0 ≤ x then ⌊x⌋ else -⌊-x⌋

/-- engines/financial.py lines 97-99: `total_steps = int(T_years * 252)`,
then `if total_steps > 2500: total_steps = 2500`,
then `if total_steps < 50: total_steps = 50`. -/
noncomputable def totalStepsZ (T_years : ℝ) : ℤ :=
  let t0 := pyInt (T_years * 252)
  let t1 := if t0 > 2500 then 2500 else t0
  if t1 < 50 then 50 else t1

/-- The clamped step count as a natural number (it is always ≥ 50). -/
noncomputable def totalSteps (T_years : ℝ) : ℕ :=
  (totalStepsZ T_years).toNat

/-- Parameters of `FinancialMath.binomial_custom_optimized`
(engines/financial.py lines 86-89), in source order. -/
structure BinInputs where
  S : ℝ
  K : ℝ
  r : ℝ
  vol : ℝ
  q : ℝ
  vesting_years : ℝ
  turnover_w : ℝ
  multiple_M : ℝ
  hurdle_H : ℝ
  T_years : ℝ
  inflacao_anual : ℝ
  lockup_years : ℝ
  tipo_exercicio : ℤ

/-- engines/financial.py line 101: `dt = T_years / total_steps`. -/
noncomputable def bdt (b : BinInputs) : ℝ :=
  b.T_years / (totalSteps b.T_years : ℝ)

/-- engines/financial.py line 104: `Nv = int(vesting_years / dt)`.
The Python value can be a negative int; it is only used in comparisons
`i >= Nv` with `i ≥ 0`, so truncating it at 0 with `toNat` preserves
every such comparison. -/
noncomputable def NvOf (b : BinInputs) : ℕ :=
  (pyInt (b.vesting_years / bdt b)).toNat

/-- engines/financial.py line 107: `u = np.exp(vol * np.sqrt(dt))`. -/
noncomputable def buF (b : BinInputs) : ℝ :=
  Real.exp (b.vol * Real.sqrt (bdt b))

/-- engines/financial.py line 108: `d = 1.0 / u`. -/
noncomputable def bdF (b : BinInputs) : ℝ :=
  1 / buF b

/-- engines/financial.py line 109:
`p = (np.exp((r - q) * dt) - d) / (u - d)`.  There is no clamping; when
`vol = 0` the denominator `u - d` is `0` (a float division by zero in the
source, total division here). -/
noncomputable def bpF (b : BinInputs) : ℝ :=
  (Real.exp ((b.r - b.q) * bdt b) - bdF b) / (buF b - bdF b)

/-- engines/financial.py line 114: `prob_ficar = np.exp(-turnover_w * dt)`. -/
noncomputable def prob_ficar (b : BinInputs) : ℝ :=
  Real.exp (-(b.turnover_w * bdt b))

/-- engines/financial.py line 115: `prob_sair = 1.0 - prob_ficar`. -/
noncomputable def prob_sair (b : BinInputs) : ℝ :=
  1 - prob_ficar b

/-- engines/financial.py lines 117-140: the terminal layer.  Index `j`
ranges over `0..total_steps`; `ST = S * u^(N-j) * d^j`,
`K_final = K * (1+inflacao_anual)^T_years`, the lockup discount is
subtracted from each terminal spot (lines 130-134), the payoff is
`max(vals_base - K_final, 0)` and is zeroed below the hurdle (line 140). -/
noncomputable def termVals (b : BinInputs) (j : ℕ) : ℝ :=
  let N := totalSteps b.T_years
  let ST := b.S * buF b ^ (N - j) * bdF b ^ j
  let K_final := b.K * (1 + b.inflacao_anual) ^ b.T_years
  let vals_base :=
    ST - (if b.lockup_years > 0
          then _calculate_lockup_discount_numba b.vol b.lockup_years ST b.q
          else 0)
  let payoff := max (vals_base - K_final) 0
  if ST ≥ b.hurdle_H then payoff else 0

/-- engines/financial.py lines 144-197: one backward-induction step.
`v` is the layer at step `i+1` (indices `0..i+1`); the result is the layer
at step `i` (indices `0..i`).  `hold[j] = e^(-r·dt)·(p·v[j]+(1-p)·v[j+1])`
(line 152); post-vesting nodes (lines 160-192) apply the lockup-adjusted
intrinsic value, the forced-exercise multiple, turnover, the American
`max`, and the hurdle gate; pre-vesting nodes (line 197) are
`prob_ficar * hold`. -/
noncomputable def stepVals (b : BinInputs) (i : ℕ) (v : ℕ → ℝ) (j : ℕ) : ℝ :=
  let K_curr := b.K * (1 + b.inflacao_anual) ^ ((i : ℝ) * bdt b)
  let hold := Real.exp (-(b.r * bdt b)) * (bpF b * v j + (1 - bpF b) * v (j + 1))
  let S_node := b.S * buF b ^ (i - j) * bdF b ^ j
  if NvOf b ≤ i then
    let S_exerc :=
      S_node - (if b.lockup_years > 0
                then _calculate_lockup_discount_numba b.vol b.lockup_years S_node b.q
                else 0)
    let intrinsic_value := max (S_exerc - K_curr) 0
    let value_node := prob_sair b * intrinsic_value + prob_ficar b * hold
    let final_node_val :=
      if b.tipo_exercicio = 0 then
        if S_node ≥ b.multiple_M * K_curr ∧ b.tipo_exercicio = 0
        then intrinsic_value
        else max value_node intrinsic_value
      else value_node
    if S_node ≥ b.hurdle_H then final_node_val else prob_ficar b * hold
  else
    prob_ficar b * hold

/-- The layers of the backward induction, counted from the terminal layer:
`layersFrom b k` is the layer at step `total_steps - k`
(so `layersFrom b 0` is the terminal layer and
`layersFrom b total_steps` is the root layer). -/
noncomputable def layersFrom (b : BinInputs) : ℕ → ℕ → ℝ
  | 0 => termVals b
  | k + 1 => stepVals b (totalSteps b.T_years - (k + 1)) (layersFrom b k)

/-- engines/financial.py line 199: `return option_values[0]`. -/
noncomputable def binomialPrice (b : BinInputs) : ℝ :=
  layersFrom b (totalSteps b.T_years) 0

/-- core/domain.py lines 13-22: the closed set of pricing models. -/
inductive PricingModelType where
  | MONTE_CARLO
  | BINOMIAL
  | BLACK_SCHOLES_GRADED
  | RSU
  | UNDEFINED
deriving DecidableEq, Repr

/-- core/domain.py lines 24-31: accounting settlement classification. -/
inductive SettlementType where
  | EQUITY_SETTLED
  | CASH_SETTLED
  | HYBRID
  | UNDEFINED
deriving DecidableEq, Repr

/-- core/domain.py lines 33-55: a vesting tranche. -/
structure TrancheData where
  vesting_date : ℝ
  proportion : ℝ
  expiration_date : Option ℝ
  custom_strike : Option ℝ

/-- core/domain.py lines 57-125: the quantitative and decision fields of
`PlanAnalysisResult`.  The narrative string fields (summary, rationale,
pros/cons) are omitted: `select_model` only ever appends to them and no
branch condition reads them. -/
structure PlanAnalysisResult where
  model_recommended : PricingModelType
  settlement_type : SettlementType
  tranches : List TrancheData
  has_market_condition : Bool
  has_strike_correction : Bool
  option_life_years : ℝ
  strike_price : ℝ
  strike_is_zero : Bool
  turnover_rate : ℝ
  early_exercise_multiple : ℝ
  lockup_years : ℝ

/-- core/domain.py lines 129-136: `get_avg_vesting` — weighted-average
vesting with defaults `3.0` (no tranches) and `0.0` (zero total
proportion). -/
noncomputable def get_avg_vesting (a : PlanAnalysisResult) : ℝ :=
  match a.tranches with
  | [] => 3
  | _ =>
    let total_prop := (a.tranches.map (fun t => t.proportion)).sum
    if total_prop = 0 then 0
    else (a.tranches.map (fun t => t.vesting_date * t.proportion)).sum / total_prop

/-- services/strategy.py lines 99-102: average contractual life.  Python's
truthiness test `if analysis.tranches and analysis.tranches[0].expiration_date`
is false for an empty list, a `None` expiration and a `0.0` expiration, in
which cases `option_life_years` is used.  Otherwise
`sum(t.expiration_date * t.proportion for t in tranches)` raises
`TypeError` as soon as any tranche's `expiration_date` is `None`
(modelled as `none`); when every expiration is present the sum is exact
(each `getD 0` is then the stored value). -/
noncomputable def avg_life (a : PlanAnalysisResult) : Option ℝ :=
  match a.tranches with
  | [] => some a.option_life_years
  | t :: _ =>
    match t.expiration_date with
    | none => some a.option_life_years
    | some e =>
      if e = 0 then some a.option_life_years
      else if a.tranches.all (fun tr => tr.expiration_date.isSome) then
        some ((a.tranches.map (fun tr => tr.expiration_date.getD 0 * tr.proportion)).sum)
      else none

/-- services/strategy.py lines 33-156: `ModelSelectorService.select_model`,
projected onto the `model_recommended` field of the returned analysis
(the other mutations only edit `methodology_rationale`).  Branch order:
market condition → MONTE_CARLO; zero strike → RSU; prior Binomial
recommendation, strike correction, exercise gap > 0.5 or lockup →
BINOMIAL; otherwise BLACK_SCHOLES_GRADED.  The gap computation can raise
`TypeError` (see `avg_life`); the raise propagates out of `select_model`,
modelled as `none` — the first two branches return before reaching it. -/
noncomputable def select_model (a : PlanAnalysisResult) : Option PricingModelType :=
  if a.has_market_condition then some PricingModelType.MONTE_CARLO
  else if a.strike_is_zero then some PricingModelType.RSU
  else
    match avg_life a with
    | none => none
    | some al =>
      if a.model_recommended = PricingModelType.BINOMIAL ∨
          a.has_strike_correction = true ∨
          al - get_avg_vesting a > 0.5 ∨ a.lockup_years > 0
      then some PricingModelType.BINOMIAL
      else some PricingModelType.BLACK_SCHOLES_GRADED

/-- ui/app_interface.py lines 553-558 (`_execute_calc`, RSU branch):
`base = S * exp(-q*T)`; when `lockup > 0` the code then evaluates
`FinancialMath.calculate_lockup_discount(...)` — but the `FinancialMath`
imported there is engines/financial.py's class, which defines only
`bs_call` and `binomial_custom_optimized` (the Chaffe discount in that
module is the module-level `_calculate_lockup_discount_numba`), so the
attribute lookup raises `AttributeError` before any argument is touched:
modelled as `none`.  (Only the legacy class inside app.py defines
`calculate_lockup_discount`, embedded above as evidence of the intended
value.)  With `lockup = 0` no discount is attempted and `fv = base`.
For RSU rows the `T` slot is filled with the tranche's vesting date
(`_render_rsu`, line 336: `"T": t_vest`). -/
noncomputable def rsu_unit_fv (S q T lockup vol : ℝ) : Option ℝ :=
  let base := S * Real.exp (-(q * T))
  if lockup > 0 then none else some base

/-- The fields of one input row consumed by `_execute_calc`
(ui/app_interface.py lines 511-575).  Missing dictionary keys default as
in the source (`item.get(..., 0.0)` etc.) when rows are assembled. -/
structure CalcItem where
  trancheId : ℕ
  S : ℝ
  K : ℝ
  T : ℝ
  r : ℝ
  vol : ℝ
  q : ℝ
  vesting : ℝ
  turnover : ℝ
  m : ℝ
  strikeCorr : ℝ
  lockup : ℝ
  prop : ℝ

/-- ui/app_interface.py lines 316-338 (`_render_rsu`): the RSU input row.
`T` receives the tranche vesting date; absent keys get `_execute_calc`'s
`item.get` defaults (`K = r = Vesting = Turnover = StrikeCorr = 0`,
`M = 2`). -/
def rsuItem (i : ℕ) (S q t_vest t_lock vol_val t_prop : ℝ) : CalcItem :=
  { trancheId := i + 1, S := S, K := 0, T := t_vest, r := 0, vol := vol_val,
    q := q, vesting := 0, turnover := 0, m := 2, strikeCorr := 0,
    lockup := t_lock, prop := t_prop }

/-- ui/app_interface.py lines 520-558: the per-tranche unit fair value
computed inside `_execute_calc`'s `try`: `vol_decimal = Vol/100`, the
multiple `M` is floored at 1, then the active model's engine is called
(Binomial with `hurdle = 0`, Black-Scholes, or the RSU branch); other
models leave `fv = 0.0`.  `none` models an exception escaping the engine
call — in this embedding the reachable raise is the RSU branch's
`AttributeError` for `lockup > 0` (see `rsu_unit_fv`); the Binomial and
Black-Scholes branches are modelled by their real-valued engine
embeddings, as in the lattice claims. -/
noncomputable def execUnit (model : PricingModelType) (it : CalcItem) : Option ℝ :=
  let vol_decimal := it.vol / 100
  let mul_m := if it.m < 1 then 1 else it.m
  match model with
  | PricingModelType.BINOMIAL =>
      some (binomialPrice
        { S := it.S, K := it.K, r := it.r, vol := vol_decimal, q := it.q,
          vesting_years := it.vesting, turnover_w := it.turnover,
          multiple_M := mul_m, hurdle_H := 0, T_years := it.T,
          inflacao_anual := it.strikeCorr, lockup_years := it.lockup,
          tipo_exercicio := 0 })
  | PricingModelType.BLACK_SCHOLES_GRADED =>
      some (bs_call it.S it.K it.T it.r vol_decimal it.q)
  | PricingModelType.RSU =>
      rsu_unit_fv it.S it.q it.T it.lockup vol_decimal
  | _ => some 0

/-- ui/app_interface.py lines 517-569: one iteration of `_execute_calc`'s
loop.  The whole per-tranche computation sits in a `try`; when the engine
call raises (`execUnit` is `none`) the `except` reports and falls
through, so the tranche contributes neither a result row nor anything to
`total_fv`.  On success, `w_fv = fv * Prop` is added to the total and a
`(FV Unit, FV Ponderado)` row is appended. -/
noncomputable def execStep (model : PricingModelType)
    (acc : ℝ × List (ℝ × ℝ)) (it : CalcItem) : ℝ × List (ℝ × ℝ) :=
  match execUnit model it with
  | none => acc
  | some fv => (acc.1 + fv * it.prop, acc.2 ++ [(fv, fv * it.prop)])

/-- ui/app_interface.py lines 511-575: the aggregation loop of
`_execute_calc`, folding `execStep` over the rows in list order.
Result: `(total_fv, rows)`. -/
noncomputable def execCalc (model : PricingModelType) (items : List CalcItem) :
    ℝ × List (ℝ × ℝ) :=
  items.foldl (execStep model) (0, [])

/-- Concrete degenerate lattice input for claim C2: `vol = 0`,
European style (`tipo_exercicio = 1`), `S = 100`, `K = 50`, `r = 0.1`,
`T = 1`, everything else switched off. -/
noncomputable def bC2 : BinInputs :=
  { S := 100, K := 50, r := 1 / 10, vol := 0, q := 0, vesting_years := 0,
    turnover_w := 0, multiple_M := 1000, hurdle_H := 0, T_years := 1,
    inflacao_anual := 0, lockup_years := 0, tipo_exercicio := 1 }

/-- Concrete lattice input for claim C3: very low volatility
(`vol = 0.01`) against a large rate differential (`r = 1`, `q = 0`),
`T = 1`. -/
noncomputable def bC3 : BinInputs :=
  { S := 100, K := 100, r := 1, vol := 1 / 100, q := 0, vesting_years := 0,
    turnover_w := 0, multiple_M := 2, hurdle_H := 0, T_years := 1,
    inflacao_anual := 0, lockup_years := 0, tipo_exercicio := 0 }

/-- Concrete lattice input witnessing the amended claim C3:
`r = q = 0`, `vol = 1`, `T = 1`. -/
def bC3w : BinInputs :=
  { S := 100, K := 100, r := 0, vol := 1, q := 0, vesting_years := 0,
    turnover_w := 0, multiple_M := 2, hurdle_H := 0, T_years := 1,
    inflacao_anual := 0, lockup_years := 0, tipo_exercicio := 0 }

/-- Concrete lattice input for claim C4's witness: vesting after half the
life (`Nv = 126` of 252 steps), 5% turnover. -/
noncomputable def bC4 : BinInputs :=
  { S := 100, K := 50, r := 1 / 10, vol := 3 / 10, q := 0, vesting_years := 1 / 2,
    turnover_w := 1 / 20, multiple_M := 2, hurdle_H := 0, T_years := 1,
    inflacao_anual := 0, lockup_years := 0, tipo_exercicio := 0 }

/-- Concrete analysis for claim C6's witness: a market condition together
with every other routing influence switched on. -/
noncomputable def aMC : PlanAnalysisResult :=
  { model_recommended := PricingModelType.BINOMIAL,
    settlement_type := SettlementType.CASH_SETTLED,
    tranches := [⟨1, 1, none, none⟩],
    has_market_condition := true, has_strike_correction := true,
    option_life_years := 10, strike_price := 0, strike_is_zero := true,
    turnover_rate := 1 / 10, early_exercise_multiple := 2, lockup_years := 2 }

/-- Concrete analysis refuting claim C7: every premise of the claim holds
(no market condition, nonzero strike, no strike correction, no lockup,
zero exercise gap) but the incoming recommendation is Binomial. -/
def aPrior : PlanAnalysisResult :=
  { model_recommended := PricingModelType.BINOMIAL,
    settlement_type := SettlementType.EQUITY_SETTLED,
    tranches := [⟨1, 1, none, none⟩],
    has_market_condition := false, has_strike_correction := false,
    option_life_years := 1, strike_price := 10, strike_is_zero := false,
    turnover_rate := 0, early_exercise_multiple := 2, lockup_years := 0 }

/-- Concrete analysis on which `select_model` raises `TypeError`
(strategy.py line 100): the first tranche's expiration is truthy while
the second tranche's expiration is `None`. -/
noncomputable def aErr : PlanAnalysisResult :=
  { model_recommended := PricingModelType.UNDEFINED,
    settlement_type := SettlementType.EQUITY_SETTLED,
    tranches := [⟨1, 1 / 2, some 5, none⟩, ⟨2, 1 / 2, none, none⟩],
    has_market_condition := false, has_strike_correction := false,
    option_life_years := 5, strike_price := 10, strike_is_zero := false,
    turnover_rate := 0, early_exercise_multiple := 2, lockup_years := 0 }

/-- Concrete RSU input row with `lockup = 1 > 0`: its engine call raises
`AttributeError` in the live UI, so `_execute_calc` skips the tranche. -/
noncomputable def itemC9 : CalcItem := rsuItem 0 100 0 2 1 30 (1 / 2)

/-- Concrete RSU input row with `lockup = 0`: its engine call succeeds. -/
def itemOk : CalcItem := rsuItem 0 100 0 2 0 30 1

/-- Concrete analysis witnessing the amended claim C7: same plan but with
an `UNDEFINED` incoming recommendation. -/
def aDef : PlanAnalysisResult :=
  { model_recommended := PricingModelType.UNDEFINED,
    settlement_type := SettlementType.EQUITY_SETTLED,
    tranches := [⟨1, 1, none, none⟩],
    has_market_condition := false, has_strike_correction := false,
    option_life_years := 1, strike_price := 10, strike_is_zero := false,
    turnover_rate := 0, early_exercise_multiple := 2, lockup_years := 0 }

/-! ## Helper lemmas -/

lemma pyInt_natCast (n : ℕ) : pyInt (n : ℝ) = n := by
  unfold pyInt
  rw [if_pos (by positivity)]
  exact_mod_cast Int.floor_natCast n

lemma epsilon_pos : 0 < EPSILON := by
  unfold EPSILON; norm_num

/-- The integrand of `erf` is interval integrable. -/
lemma exp_neg_sq_intervalIntegrable (a b : ℝ) :
    IntervalIntegrable (fun t : ℝ => Real.exp (-(t ^ 2)))
      MeasureTheory.volume a b :=
  Continuous.intervalIntegrable (by continuity) a b

/-- `erf` is monotone (its integrand is positive). -/
lemma erf_mono {x y : ℝ} (h : x ≤ y) : erf x ≤ erf y := by
  unfold erf
  have hadd :
      (∫ t in (0:ℝ)..x, Real.exp (-(t ^ 2))) + ∫ t in x..y, Real.exp (-(t ^ 2)) =
        ∫ t in (0:ℝ)..y, Real.exp (-(t ^ 2)) :=
    intervalIntegral.integral_add_adjacent_intervals
      (exp_neg_sq_intervalIntegrable 0 x) (exp_neg_sq_intervalIntegrable x y)
  have hnn : 0 ≤ ∫ t in x..y, Real.exp (-(t ^ 2)) :=
    intervalIntegral.integral_nonneg h (fun u _ => (Real.exp_pos _).le)
  have hc : (0:ℝ) ≤ 2 / Real.sqrt Real.pi := by positivity
  apply mul_le_mul_of_nonneg_left _ hc
  linarith

/-- The Numba normal CDF is monotone. -/
lemma numba_norm_cdf_mono {x y : ℝ} (h : x ≤ y) :
    _numba_norm_cdf x ≤ _numba_norm_cdf y := by
  unfold _numba_norm_cdf
  have hdiv : x / 1.41421356 ≤ y / 1.41421356 :=
    (div_le_div_iff_of_pos_right (by norm_num)).mpr h
  have := erf_mono hdiv
  linarith

/-! ## Claim C1 -/

/-- Claim C1: boundary policy of the closed-form pricer: for every
`S, K, r, σ, q`, `bs_call` with `T = 0` returns `max (S - K) 0`; and for
every `S, K, r, q` and every `T` above the time epsilon, `bs_call` with
`σ = 0` returns `max (S·e^(−qT) − K·e^(−rT)) 0`. -/
theorem bs_call_boundary_policy :
    (∀ S K r sigma q : ℝ, bs_call S K 0 r sigma q = max (S - K) 0) ∧
    (∀ S K r q T : ℝ, EPSILON < T →
      bs_call S K T r 0 q =
        max (S * Real.exp (-(q * T)) - K * Real.exp (-(r * T))) 0) := by
  constructor
  · intro S K r sigma q
    unfold bs_call
    rw [if_pos epsilon_pos.le]
  · intro S K r q T hT
    unfold bs_call
    rw [if_neg (not_le.mpr hT), if_pos epsilon_pos.le]

/-- Witness for C1: the zero-volatility branch evaluated at
`S = 3, K = 1, T = 1, r = q = 0`. -/
theorem bs_call_boundary_policy_witness :
    EPSILON < 1 ∧
    bs_call 3 1 1 0 0 0 =
      max (3 * Real.exp (-((0:ℝ) * 1)) - 1 * Real.exp (-((0:ℝ) * 1))) 0 :=
  ⟨by unfold EPSILON; norm_num,
   bs_call_boundary_policy.2 3 1 0 0 1 (by unfold EPSILON; norm_num)⟩

/-! ## Claim C5 -/

/-- Claim C5: for non-negative inputs the Chaffe lockup discount is
non-negative (hence finite and non-NaN in the real-number model); each
degenerate guard (`lockup ≤ ε`, `inner ≤ ε`, `log_term ≤ ε`, `b < 0`)
returns `0`, and the generic branch
`price·e^(−q·lockup)·(Φ(a/2) − Φ(−a/2))` is non-negative.  Only
`0 ≤ price` is needed; the claim's other non-negativity hypotheses are
not. -/
theorem lockup_discount_nonneg_guards (vol lockup price q : ℝ)
    (hp : 0 ≤ price) :
    0 ≤ _calculate_lockup_discount_numba vol lockup price q ∧
    (lockup ≤ EPSILON →
      _calculate_lockup_discount_numba vol lockup price q = 0) ∧
    (2 * (Real.exp (vol ^ 2 * lockup) - vol ^ 2 * lockup - 1) ≤ EPSILON →
      _calculate_lockup_discount_numba vol lockup price q = 0) ∧
    (Real.exp (vol ^ 2 * lockup) - 1 ≤ EPSILON →
      _calculate_lockup_discount_numba vol lockup price q = 0) ∧
    (vol ^ 2 * lockup +
        Real.log (2 * (Real.exp (vol ^ 2 * lockup) - vol ^ 2 * lockup - 1)) -
        2 * Real.log (Real.exp (vol ^ 2 * lockup) - 1) < 0 →
      _calculate_lockup_discount_numba vol lockup price q = 0) := by
  have hcdf : ∀ b : ℝ,
      0 ≤ _numba_norm_cdf (Real.sqrt b / 2) - _numba_norm_cdf (-Real.sqrt b / 2) := by
    intro b
    have hb := Real.sqrt_nonneg b
    have := numba_norm_cdf_mono (show -Real.sqrt b / 2 ≤ Real.sqrt b / 2 by linarith)
    linarith
  refine ⟨?_, ?_, ?_, ?_, ?_⟩
  · simp only [_calculate_lockup_discount_numba]
    split_ifs
    · exact le_refl 0
    · exact le_refl 0
    · exact le_refl 0
    · exact le_refl 0
    · exact mul_nonneg (mul_nonneg hp (Real.exp_pos _).le) (by
        have := hcdf (vol ^ 2 * lockup +
          Real.log (2 * (Real.exp (vol ^ 2 * lockup) - vol ^ 2 * lockup - 1)) -
          2 * Real.log (Real.exp (vol ^ 2 * lockup) - 1))
        linarith [this])
  · intro hc
    simp only [_calculate_lockup_discount_numba]
    rw [if_pos hc]
  · intro hc
    simp only [_calculate_lockup_discount_numba]
    split_ifs <;> rfl
  · intro hc
    simp only [_calculate_lockup_discount_numba]
    split_ifs <;> rfl
  · intro hc
    simp only [_calculate_lockup_discount_numba]
    split_ifs <;> rfl

/-- Witness for C5 at `σ = 1`, `lockup = 1`, `price = 100`, `q = 0`. -/
theorem lockup_discount_nonneg_guards_witness :
    (0:ℝ) ≤ 100 ∧ 0 ≤ _calculate_lockup_discount_numba 1 1 100 0 :=
  ⟨by norm_num, (lockup_discount_nonneg_guards 1 1 100 0 (by norm_num)).1⟩

/-! ## Step-count lemmas -/

lemma totalStepsZ_bounds (T : ℝ) : 50 ≤ totalStepsZ T ∧ totalStepsZ T ≤ 2500 := by
  simp only [totalStepsZ]
  split_ifs <;> omega

lemma totalSteps_bounds_aux (T : ℝ) : 50 ≤ totalSteps T ∧ totalSteps T ≤ 2500 := by
  have h := totalStepsZ_bounds T
  unfold totalSteps
  omega

lemma totalSteps_in_range (T : ℝ) (h1 : 50 ≤ pyInt (T * 252))
    (h2 : pyInt (T * 252) ≤ 2500) :
    (totalSteps T : ℤ) = pyInt (T * 252) := by
  simp only [totalSteps, totalStepsZ]
  split_ifs <;> omega

lemma pyInt_one_mul : pyInt ((1:ℝ) * 252) = 252 := by
  rw [show ((1:ℝ) * 252) = ((252:ℕ) : ℝ) by norm_num, pyInt_natCast]
  norm_num

lemma totalSteps_one : totalSteps 1 = 252 := by
  simp only [totalSteps, totalStepsZ, pyInt_one_mul]
  norm_num
  rfl

/-! ## Claim C10 -/

/-- Claim C10: the lattice step count is `int(T_years * 252)` clamped into
`[50, 2500]`: the clamped count always satisfies the bounds, it equals the
trading-day count whenever that count is already in range, and the root
value is produced by a backward recursion of exactly `totalSteps` layers
(hence bounded and terminating). -/
theorem lattice_step_count_bounded (T_years : ℝ) :
    50 ≤ totalSteps T_years ∧ totalSteps T_years ≤ 2500 ∧
    (50 ≤ pyInt (T_years * 252) → pyInt (T_years * 252) ≤ 2500 →
      (totalSteps T_years : ℤ) = pyInt (T_years * 252)) ∧
    (∀ b : BinInputs, binomialPrice b = layersFrom b (totalSteps b.T_years) 0) :=
  ⟨(totalSteps_bounds_aux T_years).1, (totalSteps_bounds_aux T_years).2,
   fun h1 h2 => totalSteps_in_range T_years h1 h2, fun _ => rfl⟩

/-- Witness for C10 at `T_years = 1`: 252 trading days, inside the clamp. -/
theorem lattice_step_count_bounded_witness :
    50 ≤ pyInt ((1:ℝ) * 252) ∧ pyInt ((1:ℝ) * 252) ≤ 2500 ∧
    (totalSteps (1:ℝ) : ℤ) = pyInt ((1:ℝ) * 252) := by
  refine ⟨by rw [pyInt_one_mul]; norm_num, by rw [pyInt_one_mul]; norm_num, ?_⟩
  exact (lattice_step_count_bounded 1).2.2.1
    (by rw [pyInt_one_mul]; norm_num) (by rw [pyInt_one_mul]; norm_num)

/-! ## Claim C4 -/

lemma layersFrom_succ (b : BinInputs) (k : ℕ) :
    layersFrom b (k + 1) =
      stepVals b (totalSteps b.T_years - (k + 1)) (layersFrom b k) := rfl

/-- Claim C4: at every node of every step strictly before the vesting step
`Nv`, the lattice node value equals
`retention_probability · hold_value`, with
`retention_probability = e^(−turnover·dt)` and
`hold_value = e^(−r·dt)·(p·value[up] + (1−p)·value[down])`; no exercise
branch applies pre-vesting.  For `turnover_w = 0` the node value is the
discounted expected continuation value itself. -/
theorem prevesting_retention_step (b : BinInputs) (i j : ℕ)
    (hiN : i < totalSteps b.T_years) (hiv : i < NvOf b) :
    (layersFrom b (totalSteps b.T_years - i) j =
      Real.exp (-(b.turnover_w * bdt b)) *
        (Real.exp (-(b.r * bdt b)) *
          (bpF b * layersFrom b (totalSteps b.T_years - (i + 1)) j +
            (1 - bpF b) * layersFrom b (totalSteps b.T_years - (i + 1)) (j + 1)))) ∧
    (b.turnover_w = 0 →
      layersFrom b (totalSteps b.T_years - i) j =
        Real.exp (-(b.r * bdt b)) *
          (bpF b * layersFrom b (totalSteps b.T_years - (i + 1)) j +
            (1 - bpF b) * layersFrom b (totalSteps b.T_years - (i + 1)) (j + 1))) := by
  have hsplit : totalSteps b.T_years - i = (totalSteps b.T_years - (i + 1)) + 1 := by
    omega
  have hidx : totalSteps b.T_years - ((totalSteps b.T_years - (i + 1)) + 1) = i := by
    omega
  have hmain : layersFrom b (totalSteps b.T_years - i) j =
      Real.exp (-(b.turnover_w * bdt b)) *
        (Real.exp (-(b.r * bdt b)) *
          (bpF b * layersFrom b (totalSteps b.T_years - (i + 1)) j +
            (1 - bpF b) * layersFrom b (totalSteps b.T_years - (i + 1)) (j + 1))) := by
    rw [hsplit, layersFrom_succ, hidx]
    simp only [stepVals]
    rw [if_neg (by omega)]
    rfl
  refine ⟨hmain, fun hw => ?_⟩
  rw [hmain, hw]
  norm_num

/-- Witness for C4: the lattice `bC4` has 252 steps and `Nv = 126`;
the theorem applies at step `i = 0`, node `j = 0`. -/
theorem prevesting_retention_step_witness :
    0 < totalSteps bC4.T_years ∧ 0 < NvOf bC4 ∧
    (layersFrom bC4 (totalSteps bC4.T_years - 0) 0 =
      Real.exp (-(bC4.turnover_w * bdt bC4)) *
        (Real.exp (-(bC4.r * bdt bC4)) *
          (bpF bC4 * layersFrom bC4 (totalSteps bC4.T_years - (0 + 1)) 0 +
            (1 - bpF bC4) * layersFrom bC4 (totalSteps bC4.T_years - (0 + 1)) (0 + 1)))) := by
  have hT : totalSteps bC4.T_years = 252 := by
    show totalSteps (1:ℝ) = 252
    exact totalSteps_one
  have hdt : bdt bC4 = 1 / 252 := by
    unfold bdt
    rw [hT]
    norm_num [bC4]
  have hNv : NvOf bC4 = 126 := by
    unfold NvOf
    rw [hdt]
    rw [show bC4.vesting_years = (1:ℝ)/2 from rfl]
    rw [show ((1:ℝ)/2) / (1/252) = ((126:ℕ) : ℝ) by norm_num, pyInt_natCast]
    rfl
  exact ⟨by omega, by omega,
    (prevesting_retention_step bC4 0 0 (by omega) (by omega)).1⟩

/-! ## Evaluation of the degenerate lattice input `bC2` (claim C2) -/

lemma totalSteps_bC2_T : totalSteps bC2.T_years = 252 := totalSteps_one

lemma bdt_bC2 : bdt bC2 = 1 / 252 := by
  unfold bdt
  rw [totalSteps_bC2_T, show bC2.T_years = (1:ℝ) from rfl]
  norm_num

lemma buF_bC2 : buF bC2 = 1 := by
  unfold buF
  rw [show bC2.vol = (0:ℝ) from rfl]
  simp

lemma bdF_bC2 : bdF bC2 = 1 := by
  unfold bdF
  rw [buF_bC2]
  norm_num

lemma bpF_bC2 : bpF bC2 = 0 := by
  unfold bpF
  rw [buF_bC2, bdF_bC2]
  simp

lemma prob_ficar_bC2 : prob_ficar bC2 = 1 := by
  unfold prob_ficar
  rw [show bC2.turnover_w = (0:ℝ) from rfl]
  simp

lemma prob_sair_bC2 : prob_sair bC2 = 0 := by
  unfold prob_sair
  rw [prob_ficar_bC2]
  norm_num

lemma NvOf_bC2 : NvOf bC2 = 0 := by
  unfold NvOf
  rw [show bC2.vesting_years = (0:ℝ) from rfl, zero_div,
    show (0:ℝ) = ((0:ℕ) : ℝ) by norm_num, pyInt_natCast]
  rfl

lemma termVals_bC2 (j : ℕ) : termVals bC2 j = 50 := by
  simp only [termVals, buF_bC2, bdF_bC2, one_pow, mul_one]
  rw [show bC2.lockup_years = (0:ℝ) from rfl, if_neg (by norm_num : ¬((0:ℝ) > 0))]
  rw [show bC2.inflacao_anual = (0:ℝ) from rfl, show bC2.T_years = (1:ℝ) from rfl,
    show bC2.K = (50:ℝ) from rfl, show bC2.S = (100:ℝ) from rfl,
    show bC2.hurdle_H = (0:ℝ) from rfl]
  rw [show ((1:ℝ) + 0) = 1 by norm_num, Real.one_rpow]
  rw [if_pos (by norm_num : (100:ℝ) ≥ 0)]
  rw [max_eq_left (by norm_num : (0:ℝ) ≤ 100 - 0 - 50 * 1)]
  norm_num

lemma layersFrom_bC2 (k : ℕ) : ∀ j, layersFrom bC2 k j =
    Real.exp (-(bC2.r * bdt bC2)) ^ k * 50 := by
  induction k with
  | zero =>
    intro j
    show termVals bC2 j = _
    rw [termVals_bC2, pow_zero, one_mul]
  | succ k ih =>
    intro j
    rw [layersFrom_succ]
    simp only [stepVals]
    rw [if_pos (by rw [NvOf_bC2]; exact Nat.zero_le _)]
    rw [buF_bC2, bdF_bC2]
    simp only [one_pow, mul_one]
    rw [show bC2.S = (100:ℝ) from rfl, show bC2.hurdle_H = (0:ℝ) from rfl]
    rw [if_pos (by norm_num : (100:ℝ) ≥ 0)]
    rw [show bC2.tipo_exercicio = (1:ℤ) from rfl]
    rw [if_neg (by norm_num : ¬((1:ℤ) = 0))]
    rw [prob_sair_bC2, prob_ficar_bC2, bpF_bC2]
    simp only [zero_mul, one_mul, zero_add, sub_zero]
    rw [ih]
    ring

lemma binomialPrice_bC2 : binomialPrice bC2 = Real.exp (-(1/10 : ℝ)) * 50 := by
  unfold binomialPrice
  rw [totalSteps_bC2_T, layersFrom_bC2 252 0, ← Real.exp_nat_mul]
  congr 1
  rw [bdt_bC2, show bC2.r = (1/10 : ℝ) from rfl]
  norm_num

/-! ## Claim C2 -/

/-- Counterexample to claim C2: the lattice pricer has no near-zero
volatility short-circuit.  At `S = 100, K = 50, r = 0.1, q = 0, T = 1`,
`σ = 0`, European style, the backward induction (under total-division
semantics, where the source divides by `u − d = 0`) returns
`e^(−0.1)·50 ≈ 45.24`, not the discounted-intrinsic value
`max(S·e^(−qT) − K·e^(−rT), 0) = 100 − 50·e^(−0.1) ≈ 54.76`. -/
theorem lattice_no_shortcircuit_cex :
    binomialPrice bC2 ≠
      max (100 * Real.exp (-((0:ℝ) * 1)) - 50 * Real.exp (-((1/10 : ℝ) * 1))) 0 := by
  rw [binomialPrice_bC2]
  have he : Real.exp (-(1/10 : ℝ)) < 1 := Real.exp_lt_one_iff.mpr (by norm_num)
  have hp : 0 < Real.exp (-(1/10 : ℝ)) := Real.exp_pos _
  have hR : max (100 * Real.exp (-((0:ℝ) * 1)) - 50 * Real.exp (-((1/10:ℝ) * 1))) 0
      = 100 - 50 * Real.exp (-(1/10 : ℝ)) := by
    rw [show (-((0:ℝ) * 1)) = 0 by norm_num, Real.exp_zero,
      show (-((1/10:ℝ) * 1)) = -(1/10 : ℝ) by norm_num]
    rw [max_eq_left (by nlinarith)]
    ring
  rw [hR]
  intro h
  nlinarith

/-- Amended claim C2: `binomial_custom_optimized` contains no degeneracy
short-circuit at all: with `σ = 0` the CRR factors collapse to
`u = d = 1`, so the risk-neutral-probability formula divides by
`u − d = 0` and the tree is traversed anyway; at the degenerate input
`bC2` (European, `σ = 0`) the returned value is `e^(−rT)·max(S−K,0)`,
not the discounted-intrinsic value.  (The vol-zero and time-zero
short-circuits of the spec exist only in the closed-form `bs_call`.) -/
theorem lattice_vol_zero_degenerates :
    (∀ b : BinInputs, b.vol = 0 → buF b = 1 ∧ bdF b = 1 ∧ buF b - bdF b = 0) ∧
    binomialPrice bC2 = Real.exp (-(1/10 : ℝ)) * 50 := by
  constructor
  · intro b hb
    have hu : buF b = 1 := by unfold buF; rw [hb]; simp
    refine ⟨hu, ?_, ?_⟩
    · unfold bdF; rw [hu]; norm_num
    · unfold bdF; rw [hu]; norm_num
  · exact binomialPrice_bC2

/-- Witness for the amended claim C2 at the degenerate input `bC2`. -/
theorem lattice_vol_zero_degenerates_witness :
    bC2.vol = 0 ∧ (buF bC2 = 1 ∧ bdF bC2 = 1 ∧ buF bC2 - bdF bC2 = 0) :=
  ⟨rfl, lattice_vol_zero_degenerates.1 bC2 rfl⟩

/-! ## Claim C3 -/

lemma totalSteps_bC3_T : totalSteps bC3.T_years = 252 := totalSteps_one

lemma bdt_bC3 : bdt bC3 = 1 / 252 := by
  unfold bdt
  rw [totalSteps_bC3_T, show bC3.T_years = (1:ℝ) from rfl]
  norm_num

/-- Counterexample to claim C3: the risk-neutral probability is *not*
clamped to `[0,1]`.  With `r = 1`, `q = 0`, `σ = 0.01`, `T = 1`
(252 steps), the probability actually used exceeds 1. -/
theorem crr_probability_not_clamped_cex :
    ¬ (0 ≤ bpF bC3 ∧ bpF bC3 ≤ 1) := by
  have hgt : 1 < bpF bC3 := by
    unfold bpF bdF buF
    rw [bdt_bC3, show bC3.r = (1:ℝ) from rfl, show bC3.q = (0:ℝ) from rfl,
      show bC3.vol = (1/100 : ℝ) from rfl]
    have hs_pos : 0 < (1/100 : ℝ) * Real.sqrt (1/252) := by positivity
    have hslt : (1/100 : ℝ) * Real.sqrt (1/252) < 1/252 := by
      have h1 : Real.sqrt (1/252) < 100/252 :=
        (Real.sqrt_lt' (by norm_num)).mpr (by norm_num)
      nlinarith
    have hinv : 1 / Real.exp ((1/100 : ℝ) * Real.sqrt (1/252)) =
        Real.exp (-((1/100 : ℝ) * Real.sqrt (1/252))) := by
      rw [Real.exp_neg, one_div]
    rw [hinv]
    have hden : 0 < Real.exp ((1/100 : ℝ) * Real.sqrt (1/252)) -
        Real.exp (-((1/100 : ℝ) * Real.sqrt (1/252))) := by
      have := Real.exp_lt_exp.mpr
        (show -((1/100 : ℝ) * Real.sqrt (1/252)) < (1/100 : ℝ) * Real.sqrt (1/252) by
          linarith)
      linarith
    rw [show ((1:ℝ) - 0) * (1/252) = 1/252 by norm_num]
    rw [one_lt_div hden]
    have := Real.exp_lt_exp.mpr hslt
    linarith
  rintro ⟨_, h1⟩
  linarith

/-- Amended claim C3: the probability used in the backward induction is
the raw CRR formula `p = (e^((r−q)·dt) − d)/(u − d)` with *no* clamping;
it lies in `[0,1]` precisely under the stability condition
`|(r−q)·dt| ≤ σ·√dt` (with positive volatility and maturity) — so `p`
can leave `[0,1]` exactly when volatility is very low relative to the
rate differential. -/
theorem crr_probability_formula_amended (b : BinInputs)
    (hvol : 0 < b.vol) (hT : 0 < b.T_years)
    (hdrift : |(b.r - b.q) * bdt b| ≤ b.vol * Real.sqrt (bdt b)) :
    bpF b = (Real.exp ((b.r - b.q) * bdt b) - bdF b) / (buF b - bdF b) ∧
    0 ≤ bpF b ∧ bpF b ≤ 1 := by
  have hdtpos : 0 < bdt b := by
    unfold bdt
    apply div_pos hT
    have h := (totalSteps_bounds_aux b.T_years).1
    exact_mod_cast (by omega : 0 < totalSteps b.T_years)
  have hspos : 0 < b.vol * Real.sqrt (bdt b) :=
    mul_pos hvol (Real.sqrt_pos.mpr hdtpos)
  have habs := abs_le.mp hdrift
  have hu : buF b = Real.exp (b.vol * Real.sqrt (bdt b)) := rfl
  have hd : bdF b = Real.exp (-(b.vol * Real.sqrt (bdt b))) := by
    unfold bdF
    rw [hu, Real.exp_neg, one_div]
  have hden : 0 < Real.exp (b.vol * Real.sqrt (bdt b)) -
      Real.exp (-(b.vol * Real.sqrt (bdt b))) := by
    have := Real.exp_lt_exp.mpr
      (show -(b.vol * Real.sqrt (bdt b)) < b.vol * Real.sqrt (bdt b) by linarith)
    linarith
  refine ⟨rfl, ?_, ?_⟩
  · unfold bpF
    rw [hu, hd]
    apply div_nonneg _ (le_of_lt hden)
    have : Real.exp (-(b.vol * Real.sqrt (bdt b))) ≤
        Real.exp ((b.r - b.q) * bdt b) := Real.exp_le_exp.mpr habs.1
    linarith
  · unfold bpF
    rw [hu, hd]
    rw [div_le_one hden]
    have : Real.exp ((b.r - b.q) * bdt b) ≤
        Real.exp (b.vol * Real.sqrt (bdt b)) := Real.exp_le_exp.mpr habs.2
    linarith

/-- Witness for the amended claim C3 at `r = q = 0`, `σ = 1`, `T = 1`. -/
theorem crr_probability_formula_amended_witness :
    (0 < bC3w.vol ∧ 0 < bC3w.T_years ∧
      |(bC3w.r - bC3w.q) * bdt bC3w| ≤ bC3w.vol * Real.sqrt (bdt bC3w)) ∧
    (bpF bC3w =
        (Real.exp ((bC3w.r - bC3w.q) * bdt bC3w) - bdF bC3w) / (buF bC3w - bdF bC3w) ∧
      0 ≤ bpF bC3w ∧ bpF bC3w ≤ 1) := by
  have h1 : 0 < bC3w.vol := by
    show (0:ℝ) < 1
    norm_num
  have h2 : 0 < bC3w.T_years := by
    show (0:ℝ) < 1
    norm_num
  have h3 : |(bC3w.r - bC3w.q) * bdt bC3w| ≤ bC3w.vol * Real.sqrt (bdt bC3w) := by
    rw [show bC3w.r = (0:ℝ) from rfl, show bC3w.q = (0:ℝ) from rfl,
      show bC3w.vol = (1:ℝ) from rfl]
    simp only [sub_zero, zero_mul, sub_self, abs_zero, one_mul]
    exact Real.sqrt_nonneg _
  exact ⟨⟨h1, h2, h3⟩, crr_probability_formula_amended bC3w h1 h2 h3⟩

/-! ## Claim C6 -/

/-- Claim C6: whenever `has_market_condition` is set, `select_model`
returns `MONTE_CARLO`, irrespective of every other feature flag, the
tranche list, and any previously recorded recommendation (first-priority
branch).  The branch precedes the exercise-gap computation, so it cannot
raise (`some`, never `none`). -/
theorem market_condition_selects_monte_carlo (a : PlanAnalysisResult)
    (h : a.has_market_condition = true) :
    select_model a = some PricingModelType.MONTE_CARLO := by
  simp [select_model, h]

/-- Witness for C6: a plan with a market condition *and* zero strike,
strike correction, lockup, turnover and a prior Binomial recommendation
still routes to Monte Carlo. -/
theorem market_condition_selects_monte_carlo_witness :
    aMC.has_market_condition = true ∧
    select_model aMC = some PricingModelType.MONTE_CARLO :=
  ⟨rfl, market_condition_selects_monte_carlo aMC rfl⟩

/-! ## Claim C7 -/

/-- Counterexample to claim C7: `aPrior` satisfies every premise of the
claim — no market condition, nonzero strike, no strike correction, no
lockup, exercise gap `0 ≤ 0.5` — yet `select_model` returns `BINOMIAL`,
because the incoming recommendation (`model_recommended = BINOMIAL`) is
honoured by the third branch (`ia_suggests_binomial`). -/
theorem selector_default_branch_cex :
    aPrior.has_market_condition = false ∧ aPrior.strike_is_zero = false ∧
    aPrior.has_strike_correction = false ∧ aPrior.lockup_years = 0 ∧
    aPrior.option_life_years - get_avg_vesting aPrior ≤ 0.5 ∧
    select_model aPrior ≠ some PricingModelType.BLACK_SCHOLES_GRADED := by
  have havg : get_avg_vesting aPrior = 1 := by
    simp [get_avg_vesting, aPrior]
  have hal : avg_life aPrior = some 1 := by
    simp [avg_life, aPrior]
  refine ⟨rfl, rfl, rfl, rfl, ?_, ?_⟩
  · rw [havg, show aPrior.option_life_years = (1:ℝ) from rfl]
    norm_num
  · have : select_model aPrior = some PricingModelType.BINOMIAL := by
      simp only [select_model, show aPrior.has_market_condition = false from rfl,
        show aPrior.strike_is_zero = false from rfl, Bool.false_eq_true, if_false,
        hal]
      rw [if_pos (Or.inl (show aPrior.model_recommended = PricingModelType.BINOMIAL
        from rfl))]
    rw [this]
    simp

/-- Amended claim C7: with no market condition, nonzero strike, no strike
correction, no lockup, an exercise gap of at most the 0.5-year threshold
(computed from `avg_life`, the proportion-weighted tranche expirations when
present, else `option_life_years`), *additionally no incoming Binomial
recommendation, and the gap computation not raising* (`avg_life` raises
`TypeError` when the first tranche's expiration is truthy but a later
tranche's expiration is `None`), `select_model` returns
`BLACK_SCHOLES_GRADED`.  An empty tranche list defaults the
weighted-average vesting to 3.0 years (it does not by itself route to the
last branch); for a nonempty list with nonzero total proportion the
weighted-average vesting is `Σ(vesting·proportion)/Σ(proportion)`; and on
the `TypeError` inputs the selector propagates the error (`none`) instead
of returning a model. -/
theorem selector_default_branch_amended (a : PlanAnalysisResult)
    (h1 : a.has_market_condition = false) (h2 : a.strike_is_zero = false)
    (h3 : a.has_strike_correction = false) (h4 : ¬ (a.lockup_years > 0))
    (h5 : a.model_recommended ≠ PricingModelType.BINOMIAL)
    (al : ℝ) (hal : avg_life a = some al)
    (h6 : ¬ (al - get_avg_vesting a > 0.5)) :
    select_model a = some PricingModelType.BLACK_SCHOLES_GRADED ∧
    (a.tranches = [] → get_avg_vesting a = 3) ∧
    (∀ t ts, a.tranches = t :: ts →
      (a.tranches.map (fun tr => tr.proportion)).sum ≠ 0 →
      get_avg_vesting a =
        (a.tranches.map (fun tr => tr.vesting_date * tr.proportion)).sum /
          (a.tranches.map (fun tr => tr.proportion)).sum) ∧
    (∀ a' : PlanAnalysisResult, a'.has_market_condition = false →
      a'.strike_is_zero = false → avg_life a' = none → select_model a' = none) := by
  refine ⟨?_, ?_, ?_, ?_⟩
  · have hcond : ¬ (a.model_recommended = PricingModelType.BINOMIAL ∨
        a.has_strike_correction = true ∨
        al - get_avg_vesting a > 0.5 ∨ a.lockup_years > 0) := by
      rintro (hx | hx | hx | hx)
      · exact h5 hx
      · rw [h3] at hx
        exact absurd hx (by simp)
      · exact h6 hx
      · exact h4 hx
    simp only [select_model, h1, h2, Bool.false_eq_true, if_false, hal]
    rw [if_neg hcond]
  · intro h
    simp only [get_avg_vesting, h]
  · intro t ts h hsum
    simp only [get_avg_vesting, h] at hsum ⊢
    rw [if_neg hsum]
  · intro a' ha1 ha2 hnone
    simp only [select_model, ha1, ha2, Bool.false_eq_true, if_false, hnone]

/-- Witness for the amended claim C7: `aDef` (no exotic features,
`UNDEFINED` incoming recommendation, one tranche vesting at 1 year with
life 1 year) routes to Black-Scholes Graded, and the error conjunct fires
on `aErr` (later tranche with `None` expiration), where the selector
propagates the `TypeError`. -/
theorem selector_default_branch_amended_witness :
    (aDef.has_market_condition = false ∧ aDef.strike_is_zero = false ∧
      aDef.has_strike_correction = false ∧ ¬ (aDef.lockup_years > 0) ∧
      aDef.model_recommended ≠ PricingModelType.BINOMIAL ∧
      avg_life aDef = some 1 ∧
      ¬ ((1:ℝ) - get_avg_vesting aDef > 0.5)) ∧
    select_model aDef = some PricingModelType.BLACK_SCHOLES_GRADED ∧
    (avg_life aErr = none ∧ select_model aErr = none) := by
  have h4 : ¬ (aDef.lockup_years > 0) := by
    rw [show aDef.lockup_years = (0:ℝ) from rfl]
    norm_num
  have h5 : aDef.model_recommended ≠ PricingModelType.BINOMIAL := by
    rw [show aDef.model_recommended = PricingModelType.UNDEFINED from rfl]
    intro hx
    exact PricingModelType.noConfusion hx
  have hal : avg_life aDef = some 1 := by
    simp [avg_life, aDef]
  have h6 : ¬ ((1:ℝ) - get_avg_vesting aDef > 0.5) := by
    have hv : get_avg_vesting aDef = 1 := by
      simp [get_avg_vesting, aDef]
    rw [hv]
    norm_num
  have herr : avg_life aErr = none := by
    norm_num [avg_life, aErr]
  exact ⟨⟨rfl, rfl, rfl, h4, h5, hal, h6⟩,
    (selector_default_branch_amended aDef rfl rfl rfl h4 h5 1 hal h6).1,
    herr,
    (selector_default_branch_amended aDef rfl rfl rfl h4 h5 1 hal h6).2.2.2
      aErr rfl rfl herr⟩

/-! ## Claim C8 -/

/-- Claim C8 (code bug): the RSU branch of `_execute_calc` intends
`S·e^(−q·vesting_date)` minus the Chaffe discount, but
`FinancialMath.calculate_lockup_discount` does not exist on the engines
`FinancialMath` class the UI imports, so every `lockup > 0` row raises
`AttributeError` (modelled `none`) instead of producing that value.  With
`lockup = 0` the unit value is `S·e^(−q·vesting_date)` with nothing
subtracted, and the RSU row's `T` slot is the tranche's vesting date, not
its expiration. -/
theorem rsu_lockup_attribute_error :
    (∀ S q t_vest vol : ℝ,
      rsu_unit_fv S q t_vest 0 vol = some (S * Real.exp (-(q * t_vest)))) ∧
    rsu_unit_fv 100 0 2 1 (3/10) = none ∧
    (∀ (i : ℕ) (S q t_vest t_lock vol_val t_prop : ℝ),
      execUnit PricingModelType.RSU (rsuItem i S q t_vest t_lock vol_val t_prop) =
        rsu_unit_fv S q t_vest t_lock (vol_val / 100)) := by
  refine ⟨?_, ?_, fun i S q t_vest t_lock vol_val t_prop => rfl⟩
  · intro S q t_vest vol
    simp only [rsu_unit_fv]
    rw [if_neg (by norm_num : ¬((0:ℝ) > 0))]
  · simp only [rsu_unit_fv]
    rw [if_pos (by norm_num : (1:ℝ) > 0)]

/-! ## Claim C9 -/

lemma execStep_none {model : PricingModelType} {it : CalcItem}
    (h : execUnit model it = none) (acc : ℝ × List (ℝ × ℝ)) :
    execStep model acc it = acc := by
  simp [execStep, h]

lemma execStep_some {model : PricingModelType} {it : CalcItem} {fv : ℝ}
    (h : execUnit model it = some fv) (acc : ℝ × List (ℝ × ℝ)) :
    execStep model acc it = (acc.1 + fv * it.prop, acc.2 ++ [(fv, fv * it.prop)]) := by
  simp [execStep, h]

lemma execCalc_foldl (model : PricingModelType) (items : List CalcItem) :
    ∀ acc : ℝ × List (ℝ × ℝ),
      items.foldl (execStep model) acc =
      (acc.1 +
        (items.filterMap (fun it => (execUnit model it).map (fun fv => fv * it.prop))).sum,
       acc.2 ++
        items.filterMap (fun it => (execUnit model it).map (fun fv => (fv, fv * it.prop)))) := by
  induction items with
  | nil => intro acc; simp
  | cons it rest ih =>
    intro acc
    cases hu : execUnit model it with
    | none =>
      rw [List.foldl_cons, execStep_none hu, ih]
      simp [List.filterMap_cons, hu]
    | some fv =>
      rw [List.foldl_cons, execStep_some hu, ih]
      simp [List.filterMap_cons, hu, add_assoc, List.append_assoc]

lemma filterMap_eq_map_of_isSome {α β : Type} (f : α → Option ℝ) (g : α → ℝ → β)
    (l : List α) (h : ∀ x ∈ l, (f x).isSome) :
    l.filterMap (fun x => (f x).map (g x)) = l.map (fun x => g x ((f x).getD 0)) := by
  induction l with
  | nil => rfl
  | cons x xs ih =>
    have hx := h x (List.mem_cons_self x xs)
    cases hfx : f x with
    | none =>
      rw [hfx] at hx
      simp at hx
    | some v =>
      rw [List.filterMap_cons, List.map_cons]
      simp only [hfx, Option.map_some', Option.getD_some]
      rw [ih (fun y hy => h y (List.mem_cons_of_mem x hy))]

/-- Amended claim C9: the aggregation loop of `_execute_calc` runs each
tranche inside a `try`; every tranche whose engine call *succeeds*
contributes, in list order, a row whose weighted fair value is its unit
fair value times its proportion, and the total equals the sum of those
successful weighted values — while a tranche whose engine call raises
(RSU with `lockup > 0`, via the missing
`FinancialMath.calculate_lockup_discount` attribute) is skipped from both
the rows and the total.  When no tranche raises, the per-tranche rows and
total reduce to the originally claimed one-row-per-tranche invariant. -/
theorem aggregation_invariant (model : PricingModelType) (items : List CalcItem) :
    (execCalc model items).2 =
      items.filterMap (fun it => (execUnit model it).map (fun fv => (fv, fv * it.prop))) ∧
    (execCalc model items).1 =
      (items.filterMap (fun it => (execUnit model it).map (fun fv => fv * it.prop))).sum ∧
    ((∀ it ∈ items, (execUnit model it).isSome) →
      (execCalc model items).2 =
        items.map (fun it => ((execUnit model it).getD 0,
          (execUnit model it).getD 0 * it.prop)) ∧
      (execCalc model items).1 =
        (items.map (fun it => (execUnit model it).getD 0 * it.prop)).sum) := by
  have hbase := execCalc_foldl model items (0, [])
  have h2 : (execCalc model items).2 =
      items.filterMap (fun it => (execUnit model it).map (fun fv => (fv, fv * it.prop))) := by
    unfold execCalc
    rw [hbase]
    simp
  have h1 : (execCalc model items).1 =
      (items.filterMap (fun it => (execUnit model it).map (fun fv => fv * it.prop))).sum := by
    unfold execCalc
    rw [hbase]
    simp
  refine ⟨h2, h1, fun hs => ⟨?_, ?_⟩⟩
  · rw [h2, filterMap_eq_map_of_isSome (execUnit model)
      (fun it fv => (fv, fv * it.prop)) items hs]
  · rw [h1, filterMap_eq_map_of_isSome (execUnit model)
      (fun it fv => fv * it.prop) items hs]

/-- Counterexample to the original claim C9: a single-tranche RSU list
with `lockup = 1 > 0` produces *no* result row and a zero total — the
engine call raises and `_execute_calc`'s `except` skips the tranche — so
"each tranche's weighted fair value equals unit × proportion and the
total is the sum over all tranches" fails. -/
theorem aggregation_skips_raising_tranche_cex :
    (execCalc PricingModelType.RSU [itemC9]).2 = [] ∧
    (execCalc PricingModelType.RSU [itemC9]).1 = 0 ∧
    itemC9.lockup > 0 := by
  have hu : execUnit PricingModelType.RSU itemC9 = none := by
    show rsu_unit_fv 100 0 2 1 (30 / 100) = none
    simp only [rsu_unit_fv]
    rw [if_pos (by norm_num : (1:ℝ) > 0)]
  have hc : execCalc PricingModelType.RSU [itemC9] = (0, []) := by
    unfold execCalc
    rw [List.foldl_cons, execStep_none hu, List.foldl_nil]
  refine ⟨by rw [hc], by rw [hc], ?_⟩
  show (1:ℝ) > 0
  norm_num

/-- Witness for the amended claim C9: a single RSU tranche with
`lockup = 0` succeeds, and the one-row-per-tranche form holds. -/
theorem aggregation_invariant_witness :
    (∀ it ∈ [itemOk], (execUnit PricingModelType.RSU it).isSome) ∧
    ((execCalc PricingModelType.RSU [itemOk]).2 =
      [itemOk].map (fun it => ((execUnit PricingModelType.RSU it).getD 0,
        (execUnit PricingModelType.RSU it).getD 0 * it.prop)) ∧
     (execCalc PricingModelType.RSU [itemOk]).1 =
      ([itemOk].map (fun it => (execUnit PricingModelType.RSU it).getD 0 * it.prop)).sum) := by
  have hs : ∀ it ∈ [itemOk], (execUnit PricingModelType.RSU it).isSome := by
    intro it hit
    rw [List.mem_singleton] at hit
    subst hit
    show (rsu_unit_fv 100 0 2 0 (30 / 100)).isSome
    simp only [rsu_unit_fv]
    rw [if_neg (by norm_num : ¬((0:ℝ) > 0))]
    rfl
  exact ⟨hs, (aggregation_invariant PricingModelType.RSU [itemOk]).2.2 hs⟩

end Icarus
